import Mathlib

/-!
Shallow embedding of the NCT7904 hardware-monitoring driver
(drivers/hwmon/nct7904.c) and proofs about its banked-register access
protocol, capability-detection sequence, channel mapping, sensor decoding
and PWM write validation.

The i2c transport is modelled as a deterministic register file: a byte read
addressed by (bank, register) returns a fixed response (a byte 0..255, or a
negative errno), and a write to the bank-select register returns 0 on
success or a negative errno.  This matches the driver's view of a stable
device.  Each access function also returns the list of bus transactions it
issued, so that statements about "how many bank-select writes happen" are
about an explicit trace.

Machine integers are modelled as Int (the C functions return int: a
non-negative byte/word or a negative errno) and Nat for register values;
all bit arithmetic stays far below 2^31 so no overflow reduction is needed.
-/

namespace NCT7904

/-- Bank numbers from the driver header. -/
def BANK_0 : Nat := 0x00

/-- Bank 2 holds the PECI / TSI control registers. -/
def BANK_2 : Nat := 0x02

/-- Bank 3 holds the fan-control mode and PWM output registers. -/
def BANK_3 : Nat := 0x03

/-- Register addresses from the driver header (all in their stated banks). -/
def VT_ADC_CTRL0_REG : Nat := 0x20

/-- Second voltage/temperature ADC control register (bank 0). -/
def VT_ADC_CTRL2_REG : Nat := 0x22

/-- Fan-enable control register pair base (bank 0). -/
def FANIN_CTRL0_REG : Nat := 0x24

/-- DTS presence control registers (bank 0). -/
def DTS_T_CTRL0_REG : Nat := 0x26

/-- Second DTS presence control register (bank 0). -/
def DTS_T_CTRL1_REG : Nat := 0x27

/-- Multi-function select register (bank 0). -/
def VT_ADC_MD_REG : Nat := 0x2E

/-- Voltage sensor reading base register (bank 0, 2 regs per sensor). -/
def VSEN1_HV_REG : Nat := 0x40

/-- Fan reading base register (bank 0, 2 regs per sensor). -/
def FANIN1_HV_REG : Nat := 0x80

/-- PECI function enable register (bank 2). -/
def PFE_REG : Nat := 0x00

/-- TSI control register (bank 2). -/
def TSI_CTRL_REG : Nat := 0x50

/-- Fan-control mode register base (bank 3, 1 reg per channel). -/
def FANCTL1_FMR_REG : Nat := 0x00

/-- PWM output register base (bank 3, 1 reg per channel). -/
def FANCTL1_OUT_REG : Nat := 0x10

/-- The i2c transport, modelled as a deterministic register file.
readByte bank reg is the response of i2c_smbus_read_byte_data for reg
while the device has bank selected (a byte, or a negative errno);
writeBankSel bank is the response of i2c_smbus_write_byte_data on the
bank-select register (0 on success, negative errno on failure). -/
structure Bus where
  readByte : Nat → Nat → Int
  writeBankSel : Nat → Int

/-- One bus transaction, for trace statements. -/
inductive BusOp where
  | bankWrite : Nat → BusOp
  | byteRead : Nat → Nat → BusOp
  deriving DecidableEq, Repr

/-- nct7904_bank_lock (the bank-selecting half; the mutex acquisition is the
single-threaded function boundary here).  Takes the cached bank (bank_sel,
-1 is the unknown sentinel), the requested bank, and the response w the bus
would give to a bank-select write.  Returns (ret, new bank_sel, issued
transactions).  Mirrors: if cache hits, return 0 with no write; otherwise
write the bank-select register; on success cache the bank, on failure set
the cache to -1 and return the error. -/
def nct7904_bank_lock (bank_sel : Int) (bank : Nat) (w : Int) :
    Int × Int × List BusOp :=
  if bank_sel = (bank : Int) then (0, bank_sel, [])
  else if w = 0 then (0, (bank : Int), [BusOp.bankWrite bank])
  else (w, -1, [BusOp.bankWrite bank])

/-- nct7904_read_reg: select the bank, then one byte read; returns the byte
or the error from either step, the updated bank cache, and the trace. -/
def nct7904_read_reg (bus : Bus) (bank_sel : Int) (bank reg : Nat) :
    Int × Int × List BusOp :=
  let l := nct7904_bank_lock bank_sel bank (bus.writeBankSel bank)
  if l.1 = 0 then
    (bus.readByte bank reg, l.2.1, l.2.2 ++ [BusOp.byteRead bank reg])
  else (l.1, l.2.1, l.2.2)

/-- nct7904_read_reg16: select the bank once, read reg, and if that byte
read succeeded read reg + 1; the first byte (lower address) becomes the
high 8 bits (ret |= hi << 8 in the source, documented there as
big-endian).  Both reads happen under the same lock acquisition with no
intervening bank change. -/
def nct7904_read_reg16 (bus : Bus) (bank_sel : Int) (bank reg : Nat) :
    Int × Int × List BusOp :=
  let l := nct7904_bank_lock bank_sel bank (bus.writeBankSel bank)
  if l.1 = 0 then
    let hi := bus.readByte bank reg
    if 0 ≤ hi then
      let lo := bus.readByte bank (reg + 1)
      if 0 ≤ lo then
        (((lo.toNat ||| (hi.toNat <<< 8) : Nat) : Int), l.2.1,
          l.2.2 ++ [BusOp.byteRead bank reg, BusOp.byteRead bank (reg + 1)])
      else
        (lo, l.2.1,
          l.2.2 ++ [BusOp.byteRead bank reg, BusOp.byteRead bank (reg + 1)])
    else (hi, l.2.1, l.2.2 ++ [BusOp.byteRead bank reg])
  else (l.1, l.2.1, l.2.2)

/-- Bus used for the C1 counterexample: the byte at 0x40 reads as 1, the
byte at 0x41 reads as 2, bank selection always succeeds. -/
def c1Bus : Bus :=
  ⟨fun _ r => if r = 0x40 then 1 else if r = 0x41 then 2 else 0, fun _ => 0⟩

/-- Claim C1 counterexample: with byte(0x40) = 1 and byte(0x41) = 2, the
claim predicts the composite word 1 ||| (2 <<< 8) = 0x0201 (byte at the
lower address in the low bits), but nct7904_read_reg16 returns 0x0102: the
byte at the lower address forms the HIGH 8 bits. -/
theorem c1_low_byte_first_false :
    (nct7904_read_reg16 c1Bus (-1) BANK_0 0x40).1 = 0x0102 ∧
    ¬((nct7904_read_reg16 c1Bus (-1) BANK_0 0x40).1 =
        ((1 ||| (2 <<< 8) : Nat) : Int)) := by
  decide

/-- Claim C1 (amended): the composite word read performs two single-byte
reads at r then r + 1 under one lock acquisition (its trace is at most one
bank-select write followed by exactly those two byte reads), and returns
byte(r + 1) ||| (byte(r) <<< 8): the byte read at the lower address r
forms the HIGH 8 bits of the result (big-endian), the byte at r + 1 the
low 8 bits. -/
theorem c1_read_reg16_big_endian (bus : Bus) (bs : Int) (b r b0 b1 : Nat)
    (hl : bs = (b : Int) ∨ bus.writeBankSel b = 0)
    (h0 : bus.readByte b r = (b0 : Int))
    (h1 : bus.readByte b (r + 1) = (b1 : Int)) :
    (nct7904_read_reg16 bus bs b r).1 = ((b1 ||| (b0 <<< 8) : Nat) : Int) ∧
    (nct7904_read_reg16 bus bs b r).2.2 =
      (if bs = (b : Int) then [] else [BusOp.bankWrite b]) ++
        [BusOp.byteRead b r, BusOp.byteRead b (r + 1)] := by
  by_cases hbs : bs = (b : Int)
  · simp [nct7904_read_reg16, nct7904_bank_lock, hbs, h0, h1,
      Int.natCast_nonneg]
  · have hw : bus.writeBankSel b = 0 := by
      rcases hl with hl | hl
      · exact absurd hl hbs
      · exact hl
    simp [nct7904_read_reg16, nct7904_bank_lock, hbs, hw, h0, h1,
      Int.natCast_nonneg]

/-- Claim C1 witness: concrete instantiation of the big-endian composite
read theorem on c1Bus. -/
theorem c1_read_reg16_big_endian_witness :
    (nct7904_read_reg16 c1Bus (-1) BANK_0 0x40).1 =
      ((2 ||| (1 <<< 8) : Nat) : Int) ∧
    (nct7904_read_reg16 c1Bus (-1) BANK_0 0x40).2.2 =
      (if (-1 : Int) = ((BANK_0 : Nat) : Int) then [] else
        [BusOp.bankWrite BANK_0]) ++
        [BusOp.byteRead BANK_0 0x40, BusOp.byteRead BANK_0 (0x40 + 1)] :=
  c1_read_reg16_big_endian c1Bus (-1) BANK_0 0x40 1 2 (Or.inr rfl)
    (by decide) (by decide)

/-- Claim C5: bank selection is a no-op when the cached bank equals the
requested bank, and issues exactly one bank-select write otherwise; a
successful write caches the requested bank (so an immediately following
operation on the same bank issues no further write: exactly one
transaction across the two operations), and a failed write sets the cache
to the unknown sentinel -1, so the next operation re-issues a bank-select
regardless of the requested bank. -/
theorem c5_bank_select_cache (bs : Int) (b b2 : Nat) (w w2 : Int) :
    (nct7904_bank_lock ((b : Nat) : Int) b w = (0, ((b : Nat) : Int), [])) ∧
    (bs ≠ (b : Int) →
      (nct7904_bank_lock bs b w).2.2 = [BusOp.bankWrite b]) ∧
    (bs ≠ (b : Int) → w = 0 →
      nct7904_bank_lock bs b w = (0, (b : Int), [BusOp.bankWrite b]) ∧
      nct7904_bank_lock (nct7904_bank_lock bs b w).2.1 b w2 =
        (0, (b : Int), [])) ∧
    (bs ≠ (b : Int) → w ≠ 0 →
      nct7904_bank_lock bs b w = (w, -1, [BusOp.bankWrite b]) ∧
      (nct7904_bank_lock (nct7904_bank_lock bs b w).2.1 b2 w2).2.2 =
        [BusOp.bankWrite b2]) := by
  have hneg : (-1 : Int) ≠ ((b2 : Nat) : Int) := by
    have : (0 : Int) ≤ ((b2 : Nat) : Int) := Int.natCast_nonneg b2
    omega
  refine ⟨by simp [nct7904_bank_lock], ?_, ?_, ?_⟩
  · intro hne
    by_cases hw : w = 0 <;> simp [nct7904_bank_lock, hne, hw]
  · intro hne hw
    constructor
    · simp [nct7904_bank_lock, hne, hw]
    · simp [nct7904_bank_lock, hne, hw]
  · intro hne hw
    constructor
    · simp [nct7904_bank_lock, hne, hw]
    · by_cases hw2 : w2 = 0 <;>
        simp [nct7904_bank_lock, hne, hw, hneg, hw2]

/-- Claim C5 witness: starting from the unknown cache, a failed bank-select
write (errno -5) leaves the cache at the sentinel, and the next operation
on a different bank re-issues a bank-select write. -/
theorem c5_bank_select_cache_witness :
    nct7904_bank_lock (-1) 0 (-5) = (-5, -1, [BusOp.bankWrite 0]) ∧
    (nct7904_bank_lock (nct7904_bank_lock (-1) 0 (-5)).2.1 2 0).2.2 =
      [BusOp.bankWrite 2] :=
  (c5_bank_select_cache (-1) 0 2 (-5) 0).2.2.2 (by decide) (by decide)

/-- The logical-to-physical voltage channel table (nct7904_chan_to_index),
verbatim from the source: entry 0 is the unused placeholder, then
0..15, then the out-of-order tail 18, 19, 20, 16. -/
def nct7904_chan_to_index : List Nat :=
  [0, 0, 1, 2, 3, 4, 5, 6, 7, 8, 9, 10, 11, 12, 13, 14, 15, 18, 19, 20, 16]

/-- Claim C3 counterexample: the claim maps logical channels 1..17 to
physical indices 0..16 in order, hence channel 17 to index 16; the table
in the source sends channel 17 to index 18 instead, and the table has only
21 entries (channels 0..20), so there is no logical channel 21 at all. -/
theorem c3_chan_seventeen_not_sixteen :
    nct7904_chan_to_index.getD 17 0 = 18 ∧ (18 : Nat) ≠ 16 ∧
    nct7904_chan_to_index.length = 21 := by
  decide

/-- Claim C3 (amended): the table covers logical channels 0..20 (21
entries); channel 0 is the unused placeholder mapped to 0, channels 1..16
map to physical indices 0..15 in order, and channels 17, 18, 19, 20 map to
physical indices 18, 19, 20, 16 respectively; only channel 20 resolves to
physical index 16. -/
theorem c3_chan_map :
    ∀ c : Fin 21, nct7904_chan_to_index.getD c.val 0 =
      (if c.val = 0 then 0
       else if c.val ≤ 16 then c.val - 1
       else if c.val = 17 then 18
       else if c.val = 18 then 19
       else if c.val = 19 then 20
       else 16) := by
  decide

/-- Sub-field extraction in the multi-function veto step, verbatim from the
source: val = (ret & (0x03 << i)) >> (i * 2).  The mask is shifted by i
while the result is shifted down by 2 * i, so the mask and the shift
disagree. -/
def vetoSubfield (ret i : Nat) : Nat :=
  (ret &&& (0x03 <<< i)) >>> (i * 2)

/-- The multi-function veto loop from nct7904_probe: for i = 0..3, clear
tentative CPU-temperature bit i of the mask when the extracted sub-field
is zero (tcpu_mask &= ~bit on a u32). -/
def tcpuVeto (ret tcpu_mask : Nat) : Nat :=
  (List.range 4).foldl
    (fun m i =>
      if vetoSubfield ret i = 0 then m &&& (0xffffffff ^^^ (1 <<< i)) else m)
    tcpu_mask

/-- Modelled from the spec: the veto loop as the claim states it, with the
2-bit sub-field taken at bit positions 2 * i and 2 * i + 1 of the
multi-function-select byte.  Stated only for comparison with tcpuVeto. -/
def tcpuVetoSpecified (ret tcpu_mask : Nat) : Nat :=
  (List.range 4).foldl
    (fun m i =>
      if (ret >>> (2 * i)) &&& 0x03 = 0 then
        m &&& (0xffffffff ^^^ (1 <<< i))
      else m)
    tcpu_mask

set_option maxRecDepth 100000 in
/-- Claim C4: the source's mask (0x03 << i) combined with the shift
(i * 2) is not the 2-bit sub-field at positions 2i, 2i+1 the claim (and the
surrounding code's purpose) describes.  On multi-function byte 0x30 with
tentative mask 0x1F the code clears tentative bit 2 (giving 0x10) although
the sub-field at bits 4, 5 is 3 (the claim's semantics keeps it, giving
0x14); indeed the code's extracted value is identically zero for i = 2 and
i = 3, so tentative bits 2 and 3 are always cleared.  The fifth
(local-diode) bit 4 is indeed never cleared by this step. -/
theorem c4_veto_mask_shift_mismatch :
    tcpuVeto 0x30 0x1F = 0x10 ∧
    tcpuVetoSpecified 0x30 0x1F = 0x14 ∧
    (∀ r : Fin 256, vetoSubfield r.val 2 = 0 ∧ vetoSubfield r.val 3 = 0) ∧
    (∀ r : Fin 256, ∀ m : Fin 32,
      Nat.testBit (tcpuVeto r.val m.val) 4 = Nat.testBit m.val 4) := by
  decide

/-- Fan edge-count extraction from a raw composite word, verbatim from
nct7904_read_fan: cnt = ((ret & 0xff00) >> 3) | (ret & 0x1f). -/
def fanCnt (raw : Nat) : Nat :=
  ((raw &&& 0xff00) >>> 3) ||| (raw &&& 0x1f)

/-- nct7904_read_fan for the hwmon_fan_input attribute: read the composite
word, extract the count, report 0 RPM at the 0x1fff sentinel and
1350000 / cnt otherwise.  The C source divides unguarded; cnt = 0 is
undefined behaviour there (division by zero), modelled as none. -/
def nct7904_read_fan (bus : Bus) (bank_sel : Int) (channel : Nat) :
    Option Int :=
  let ret := (nct7904_read_reg16 bus bank_sel BANK_0
    (FANIN1_HV_REG + channel * 2)).1
  if ret < 0 then some ret
  else
    let cnt := fanCnt ret.toNat
    if cnt = 0x1fff then some 0
    else if cnt = 0 then none
    else some (((1350000 / cnt : Nat) : Int))

/-- Claim C6: for every successfully read fan raw word whose extracted
count is nonzero, the fan input read returns 0 RPM when the count equals
the sentinel 0x1fff and 1350000 / count RPM otherwise; in particular a
count of 1350 decodes to exactly 1000 RPM. -/
theorem c6_fan_decode (bus : Bus) (bs : Int) (ch raw : Nat)
    (hr : (nct7904_read_reg16 bus bs BANK_0 (FANIN1_HV_REG + ch * 2)).1 =
      (raw : Int))
    (hnz : fanCnt raw ≠ 0) :
    nct7904_read_fan bus bs ch =
      some (if fanCnt raw = 0x1fff then 0
            else ((1350000 / fanCnt raw : Nat) : Int)) ∧
    (fanCnt raw = 1350 → nct7904_read_fan bus bs ch = some 1000) := by
  have hmain : nct7904_read_fan bus bs ch =
      some (if fanCnt raw = 0x1fff then 0
            else ((1350000 / fanCnt raw : Nat) : Int)) := by
    unfold nct7904_read_fan
    rw [hr]
    have hpos : ¬((raw : Int) < 0) := by
      have := Int.natCast_nonneg raw
      omega
    simp only [hpos, if_false, Int.toNat_natCast]
    by_cases hs : fanCnt raw = 0x1fff
    · simp [hs]
    · simp [hs, hnz]
  refine ⟨hmain, ?_⟩
  intro h1350
  rw [hmain, h1350]
  norm_num

/-- Bus used for the C6 and C9 witnesses: the fan word at registers
0x80/0x81 reads as 0x2A / 0x06, so the raw word is 0x2A06 and the
extracted count is 1350. -/
def fanBus : Bus :=
  ⟨fun _ r => if r = 0x80 then 0x2A else if r = 0x81 then 0x06 else 0,
   fun _ => 0⟩

/-- Claim C6 witness: on fanBus the fan read of channel 0 decodes count
1350 to exactly 1000 RPM. -/
theorem c6_fan_decode_witness : nct7904_read_fan fanBus (-1) 0 = some 1000 :=
  (c6_fan_decode fanBus (-1) 0 0x2A06 (by decide) (by decide)).2 (by decide)

/-- Bus on which the fan word reads as 0, exhibiting the zero count. -/
def zeroFanBus : Bus := ⟨fun _ _ => 0, fun _ => 0⟩

/-- Claim C9: the division in the fan decode is guarded only against the
sentinel: the raw word 0 extracts count 0, which is not the sentinel
0x1fff, and on such a bus the read hits the division-by-zero branch
(modelled as none); under the precondition that the extracted count is
nonzero the division branch is well-defined (the read returns a value). -/
theorem c9_fan_division_guard (bus : Bus) (bs : Int) (ch raw : Nat)
    (hr : (nct7904_read_reg16 bus bs BANK_0 (FANIN1_HV_REG + ch * 2)).1 =
      (raw : Int))
    (hnz : fanCnt raw ≠ 0) :
    fanCnt 0 = 0 ∧ fanCnt 0 ≠ 0x1fff ∧
    nct7904_read_fan zeroFanBus (-1) 0 = none ∧
    (nct7904_read_fan bus bs ch).isSome = true := by
  refine ⟨by decide, by decide, by decide, ?_⟩
  unfold nct7904_read_fan
  rw [hr]
  have hpos : ¬((raw : Int) < 0) := by
    have := Int.natCast_nonneg raw
    omega
  simp only [hpos, if_false, Int.toNat_natCast]
  by_cases hs : fanCnt raw = 0x1fff
  · simp [hs]
  · simp [hs, hnz]

/-- Claim C9 witness: concrete instantiation on fanBus (count 1350). -/
theorem c9_fan_division_guard_witness :
    fanCnt 0 = 0 ∧ fanCnt 0 ≠ 0x1fff ∧
    nct7904_read_fan zeroFanBus (-1) 0 = none ∧
    (nct7904_read_fan fanBus (-1) 0).isSome = true :=
  c9_fan_division_guard fanBus (-1) 0 0x2A06 (by decide) (by decide)

/-- Voltage magnitude extraction from a raw composite word, verbatim from
nct7904_read_in: volt = ((ret & 0xff00) >> 5) | (ret & 0x7). -/
def voltMag (raw : Nat) : Nat :=
  ((raw &&& 0xff00) >>> 5) ||| (raw &&& 0x7)

/-- nct7904_read_in for the hwmon_in_input attribute: map the logical
channel through the table, read the composite word at the physical index,
extract the 11-bit magnitude and scale by 2 mV (index < 14) or
6 mV (index >= 14). -/
def nct7904_read_in (bus : Bus) (bank_sel : Int) (channel : Nat) : Int :=
  let index := nct7904_chan_to_index.getD channel 0
  let ret := (nct7904_read_reg16 bus bank_sel BANK_0
    (VSEN1_HV_REG + index * 2)).1
  if ret < 0 then ret
  else
    let volt := voltMag ret.toNat
    (((if index < 14 then volt * 2 else volt * 6) : Nat) : Int)

/-- Claim C8: for every voltage channel read that obtains raw word raw,
the returned value in millivolts is the extracted magnitude times 2 when
the mapped physical index is below 14 and times 6 when it is 14 or above;
in particular magnitude 100 decodes to 200 mV below index 14 and to
600 mV at index 14 or above. -/
theorem c8_in_decode (bus : Bus) (bs : Int) (ch raw : Nat)
    (hr : (nct7904_read_reg16 bus bs BANK_0
      (VSEN1_HV_REG + (nct7904_chan_to_index.getD ch 0) * 2)).1 =
      (raw : Int)) :
    nct7904_read_in bus bs ch =
      ((voltMag raw *
        (if nct7904_chan_to_index.getD ch 0 < 14 then 2 else 6) : Nat) :
        Int) ∧
    (voltMag raw = 100 → nct7904_chan_to_index.getD ch 0 < 14 →
      nct7904_read_in bus bs ch = 200) ∧
    (voltMag raw = 100 → 14 ≤ nct7904_chan_to_index.getD ch 0 →
      nct7904_read_in bus bs ch = 600) := by
  have hmain : nct7904_read_in bus bs ch =
      ((voltMag raw *
        (if nct7904_chan_to_index.getD ch 0 < 14 then 2 else 6) : Nat) :
        Int) := by
    simp only [nct7904_read_in]
    rw [hr]
    have hpos : ¬((raw : Int) < 0) := by
      have := Int.natCast_nonneg raw
      omega
    simp only [hpos, if_false, Int.toNat_natCast]
    by_cases hi : nct7904_chan_to_index.getD ch 0 < 14 <;> simp [hi]
  refine ⟨hmain, ?_, ?_⟩
  · intro h100 hlt
    rw [hmain, h100, if_pos hlt]
    norm_num
  · intro h100 hge
    rw [hmain, h100, if_neg (by omega)]
    norm_num

/-- Bus used for the C8 witness: the word at registers 0x40/0x41 reads as
0x0C / 0x04, so the raw word is 0x0C04 and the magnitude is 100. -/
def inBus : Bus :=
  ⟨fun _ r => if r = 0x40 then 0x0C else if r = 0x41 then 0x04 else 0,
   fun _ => 0⟩

/-- Claim C8 witness: logical channel 1 maps to physical index 0 (< 14),
and magnitude 100 decodes to 200 mV there. -/
theorem c8_in_decode_witness : nct7904_read_in inBus (-1) 1 = 200 :=
  (c8_in_decode inBus (-1) 1 0x0C04 (by decide)).2.1 (by decide) (by decide)

/-- PWM attributes handled by nct7904_write_pwm / nct7904_pwm_is_visible
(hwmon_pwm_input, hwmon_pwm_enable, anything else). -/
inductive PwmAttr where
  | input
  | enable
  | other
  deriving DecidableEq, Repr

/-- nct7904_write_pwm.  wr bank reg v is the result the banked write
(nct7904_write_reg) would return; fan_mode is the attach-time snapshot.
Returns the function result (0/errno from wr, -EINVAL = -22 on validation
failure, -EOPNOTSUPP = -95 on an unknown attribute) together with the list
of bus write transactions issued as (bank, reg, value) triples; validation
failures issue none. -/
def nct7904_write_pwm (wr : Nat → Nat → Nat → Int) (fan_mode : Nat → Nat)
    (attr : PwmAttr) (channel : Nat) (val : Int) :
    Int × List (Nat × Nat × Nat) :=
  match attr with
  | PwmAttr.input =>
      if val < 0 ∨ val > 255 then (-22, [])
      else (wr BANK_3 (FANCTL1_OUT_REG + channel) val.toNat,
            [(BANK_3, FANCTL1_OUT_REG + channel, val.toNat)])
  | PwmAttr.enable =>
      if val < 1 ∨ val > 2 ∨ (val = 2 ∧ fan_mode channel = 0) then (-22, [])
      else
        let b := if val = 2 then fan_mode channel else 0
        (wr BANK_3 (FANCTL1_FMR_REG + channel) b,
         [(BANK_3, FANCTL1_FMR_REG + channel, b)])
  | PwmAttr.other => (-95, [])

/-- Claim C7: a PWM enable write accepts only 1 (manual) and 2 (automatic)
and rejects any other value with -EINVAL before any bus transaction;
writing 2 is rejected (again with no transaction) when the fan-mode
snapshot of the channel is 0 and otherwise writes the snapshot byte to the
channel's mode register; writing 1 writes 0 to the mode register. -/
theorem c7_pwm_enable_write (wr : Nat → Nat → Nat → Int)
    (fm : Nat → Nat) (ch : Nat) (v : Int) :
    ((v < 1 ∨ v > 2) →
      nct7904_write_pwm wr fm PwmAttr.enable ch v = (-22, [])) ∧
    (v = 2 → fm ch = 0 →
      nct7904_write_pwm wr fm PwmAttr.enable ch v = (-22, [])) ∧
    (v = 1 →
      nct7904_write_pwm wr fm PwmAttr.enable ch v =
        (wr BANK_3 (FANCTL1_FMR_REG + ch) 0,
         [(BANK_3, FANCTL1_FMR_REG + ch, 0)])) ∧
    (v = 2 → fm ch ≠ 0 →
      nct7904_write_pwm wr fm PwmAttr.enable ch v =
        (wr BANK_3 (FANCTL1_FMR_REG + ch) (fm ch),
         [(BANK_3, FANCTL1_FMR_REG + ch, fm ch)])) := by
  refine ⟨?_, ?_, ?_, ?_⟩
  · intro hv
    have : v < 1 ∨ v > 2 ∨ (v = 2 ∧ fm ch = 0) := by
      rcases hv with hv | hv
      · exact Or.inl hv
      · exact Or.inr (Or.inl hv)
    simp [nct7904_write_pwm, this]
  · intro hv hm
    have : v < 1 ∨ v > 2 ∨ (v = 2 ∧ fm ch = 0) :=
      Or.inr (Or.inr ⟨hv, hm⟩)
    simp [nct7904_write_pwm, this]
  · intro hv
    subst hv
    simp [nct7904_write_pwm]
  · intro hv hm
    subst hv
    have hcond : ¬((2 : Int) < 1 ∨ (2 : Int) > 2 ∨
        ((2 : Int) = 2 ∧ fm ch = 0)) := by
      push_neg
      refine ⟨by omega, by omega, fun _ => hm⟩
    simp [nct7904_write_pwm, hcond, hm]

/-- Claim C7 witness: with a zero snapshot on channel 0, writing
"automatic" (2) is rejected with -EINVAL and no bus transaction. -/
theorem c7_pwm_enable_write_witness :
    nct7904_write_pwm (fun _ _ _ => 0) (fun _ => 0) PwmAttr.enable 0 2 =
      (-22, []) :=
  (c7_pwm_enable_write (fun _ _ _ => 0) (fun _ => 0) 0 2).2.1 rfl rfl

/-- The device handle populated by nct7904_probe. -/
structure NCT7904Data where
  bank_sel : Int
  fanin_mask : Nat
  vsen_mask : Nat
  tcpu_mask : Nat
  fan_mode : List Nat
  enable_dts : Nat
  has_dts : Nat
  deriving DecidableEq, Repr

/-- Fan attributes handled by the fan visibility / read functions. -/
inductive FanAttr where
  | input
  | other
  deriving DecidableEq, Repr

/-- Voltage attributes handled by the in visibility / read functions. -/
inductive InAttr where
  | input
  | other
  deriving DecidableEq, Repr

/-- Temperature attributes handled by the temp visibility function. -/
inductive TempAttr where
  | input
  | other
  deriving DecidableEq, Repr

/-- nct7904_fan_is_visible: fan input channel visible (0444) iff its bit
is set in the fan presence mask. -/
def nct7904_fan_is_visible (data : NCT7904Data) (attr : FanAttr)
    (channel : Nat) : Nat :=
  if attr = FanAttr.input ∧ data.fanin_mask &&& (1 <<< channel) ≠ 0 then
    0o444
  else 0

/-- nct7904_in_is_visible: voltage input channel visible (0444) iff the
channel is nonzero and its mapped physical index's bit is set in the
voltage presence mask. -/
def nct7904_in_is_visible (data : NCT7904Data) (attr : InAttr)
    (channel : Nat) : Nat :=
  let index := nct7904_chan_to_index.getD channel 0
  if channel > 0 ∧ attr = InAttr.input ∧
      data.vsen_mask &&& (1 <<< index) ≠ 0 then
    0o444
  else 0

/-- nct7904_temp_is_visible: channels below 5 consult the CPU-temperature
mask, channels 5 and above the DTS presence mask. -/
def nct7904_temp_is_visible (data : NCT7904Data) (attr : TempAttr)
    (channel : Nat) : Nat :=
  if attr = TempAttr.input then
    if channel < 5 then
      if data.tcpu_mask &&& (1 <<< channel) ≠ 0 then 0o444 else 0
    else
      if data.has_dts &&& (1 <<< (channel - 5)) ≠ 0 then 0o444 else 0
  else 0

/-- nct7904_pwm_is_visible: both PWM attributes are reported read-write
(0644) unconditionally; the device data and the channel are not consulted
at all. -/
def nct7904_pwm_is_visible (_data : NCT7904Data) (attr : PwmAttr)
    (_channel : Nat) : Nat :=
  match attr with
  | PwmAttr.input => 0o644
  | PwmAttr.enable => 0o644
  | PwmAttr.other => 0

/-- Device data with every presence mask empty. -/
def maskedOffData : NCT7904Data := ⟨-1, 0, 0, 0, [], 0, 0⟩

/-- Device data with every presence mask full. -/
def maskedOnData : NCT7904Data := ⟨-1, 0xFFF, 0x1FFFFF, 0x1F, [], 0, 0xFF⟩

/-- Claim C10: for every device state and channel, the PWM visibility
predicate reports both the duty (pwm input) and the pwm enable attribute
as present and read-write (0644), independent of every presence mask and
of the fan-mode snapshot; by contrast the fan, voltage and temperature
visibility predicates consult a presence mask (each returns 0 on a device
with empty masks and 0444 on a device with full masks). -/
theorem c10_pwm_visibility_unconditional (d d2 : NCT7904Data) (ch : Nat) :
    nct7904_pwm_is_visible d PwmAttr.input ch = 0o644 ∧
    nct7904_pwm_is_visible d PwmAttr.enable ch = 0o644 ∧
    nct7904_pwm_is_visible d PwmAttr.input ch =
      nct7904_pwm_is_visible d2 PwmAttr.input ch ∧
    nct7904_pwm_is_visible d PwmAttr.enable ch =
      nct7904_pwm_is_visible d2 PwmAttr.enable ch ∧
    (nct7904_fan_is_visible maskedOffData FanAttr.input 0 = 0 ∧
      nct7904_fan_is_visible maskedOnData FanAttr.input 0 = 0o444) ∧
    (nct7904_in_is_visible maskedOffData InAttr.input 1 = 0 ∧
      nct7904_in_is_visible maskedOnData InAttr.input 1 = 0o444) ∧
    (nct7904_temp_is_visible maskedOffData TempAttr.input 0 = 0 ∧
      nct7904_temp_is_visible maskedOnData TempAttr.input 0 = 0o444) :=
  ⟨rfl, rfl, rfl, rfl, by decide, by decide, by decide⟩

/-- Byte-swap of a 16-bit word, as done on the fan-enable and
voltage-enable control words in nct7904_probe:
(ret >> 8) | ((ret & 0xff) << 8). -/
def swap16 (x : Nat) : Nat :=
  (x >>> 8) ||| ((x &&& 0xff) <<< 8)

/-- Probe step: FANIN attributes.  Read the 16-bit fan-enable control
word; a failure aborts; byte-swap it into the fan presence mask.  The
probe starts with bank_sel = -1.  Returns (fanin_mask, bank_sel). -/
def probeFanin (bus : Bus) : Except Int (Nat × Int) :=
  let r := nct7904_read_reg16 bus (-1) BANK_0 FANIN_CTRL0_REG
  if r.1 < 0 then Except.error r.1
  else Except.ok (swap16 r.1.toNat, r.2.1)

/-- Probe step: VSEN attributes.  Read the 16-bit voltage-enable control
word and the additional control byte; failures are tolerated (the source
only guards each contribution with if (ret >= 0), it never returns), so
this step is total.  Returns (vsen_mask, bank_sel). -/
def probeVsen (bus : Bus) (bank_sel : Int) : Nat × Int :=
  let r := nct7904_read_reg16 bus bank_sel BANK_0 VT_ADC_CTRL0_REG
  let mask := if 0 ≤ r.1 then swap16 r.1.toNat else 0
  let r2 := nct7904_read_reg bus r.2.1 BANK_0 VT_ADC_CTRL2_REG
  let mask2 := if 0 ≤ r2.1 then mask ||| (r2.1.toNat <<< 16) else mask
  (mask2, r2.2.1)

/-- Probe step: CPU_TEMP attributes and LTD.  Two byte reads, each
aborting on failure; derive the five tentative CPU-temperature bits.
Returns (tcpu_mask, bank_sel). -/
def probeTcpu (bus : Bus) (bank_sel : Int) : Except Int (Nat × Int) :=
  let r := nct7904_read_reg bus bank_sel BANK_0 VT_ADC_CTRL0_REG
  if r.1 < 0 then Except.error r.1
  else
    let v := r.1.toNat
    let m :=
      (if v &&& 0x6 = 0x6 then 1 else 0) |||
      (if v &&& 0x18 = 0x18 then 2 else 0) |||
      (if v &&& 0x20 = 0x20 then 4 else 0) |||
      (if v &&& 0x80 = 0x80 then 8 else 0)
    let r2 := nct7904_read_reg bus r.2.1 BANK_0 VT_ADC_CTRL2_REG
    if r2.1 < 0 then Except.error r2.1
    else
      let m2 := if r2.1.toNat &&& 0x02 = 0x02 then m ||| 0x10 else m
      Except.ok (m2, r2.2.1)

/-- Probe step: multi-function veto.  Read the multi-function-select byte
(aborting on failure) and run the veto loop over the tentative mask.
Returns (tcpu_mask, bank_sel). -/
def probeVeto (bus : Bus) (bank_sel : Int) (tcpu : Nat) :
    Except Int (Nat × Int) :=
  let r := nct7904_read_reg bus bank_sel BANK_0 VT_ADC_MD_REG
  if r.1 < 0 then Except.error r.1
  else Except.ok (tcpuVeto r.1.toNat tcpu, r.2.1)

/-- Probe step: PECI / TSI.  Read the PECI-function-enable byte (bank 2);
if its top bit is set external diode sensing is PECI-based (1); otherwise
read the TSI control byte, and if its top bit is set it is TSI-based (3),
else disabled (0).  Returns (enable_dts, bank_sel). -/
def probePeci (bus : Bus) (bank_sel : Int) : Except Int (Nat × Int) :=
  let r := nct7904_read_reg bus bank_sel BANK_2 PFE_REG
  if r.1 < 0 then Except.error r.1
  else if r.1.toNat &&& 0x80 ≠ 0 then Except.ok (1, r.2.1)
  else
    let r2 := nct7904_read_reg bus r.2.1 BANK_2 TSI_CTRL_REG
    if r2.1 < 0 then Except.error r2.1
    else if r2.1.toNat &&& 0x80 ≠ 0 then Except.ok (3, r2.2.1)
    else Except.ok (0, r2.2.1)

/-- Probe step: DTS presence.  Only when external diode sensing is
enabled: read the low nibble, and in TSI mode also the high nibble.
Returns (has_dts, bank_sel). -/
def probeDts (bus : Bus) (bank_sel : Int) (enable_dts : Nat) :
    Except Int (Nat × Int) :=
  if enable_dts ≠ 0 then
    let r := nct7904_read_reg bus bank_sel BANK_0 DTS_T_CTRL0_REG
    if r.1 < 0 then Except.error r.1
    else
      let lowNib := r.1.toNat &&& 0xF
      if enable_dts &&& 0x2 ≠ 0 then
        let r2 := nct7904_read_reg bus r.2.1 BANK_0 DTS_T_CTRL1_REG
        if r2.1 < 0 then Except.error r2.1
        else Except.ok (lowNib ||| ((r2.1.toNat &&& 0xF) <<< 4), r2.2.1)
      else Except.ok (lowNib, r.2.1)
  else Except.ok (0, bank_sel)

/-- Probe step: fan-mode snapshot.  Read the four fan-control mode bytes
(bank 3), aborting on any failure.  Returns (fan_mode list, bank_sel). -/
def probeFanMode (bus : Bus) (bank_sel : Int) :
    Except Int (List Nat × Int) :=
  let r0 := nct7904_read_reg bus bank_sel BANK_3 (FANCTL1_FMR_REG + 0)
  if r0.1 < 0 then Except.error r0.1 else
  let r1 := nct7904_read_reg bus r0.2.1 BANK_3 (FANCTL1_FMR_REG + 1)
  if r1.1 < 0 then Except.error r1.1 else
  let r2 := nct7904_read_reg bus r1.2.1 BANK_3 (FANCTL1_FMR_REG + 2)
  if r2.1 < 0 then Except.error r2.1 else
  let r3 := nct7904_read_reg bus r2.2.1 BANK_3 (FANCTL1_FMR_REG + 3)
  if r3.1 < 0 then Except.error r3.1 else
  Except.ok ([r0.1.toNat, r1.1.toNat, r2.1.toNat, r3.1.toNat], r3.2.1)

/-- nct7904_probe: the one-time capability-detection sequence, composed of
the probe steps in source order.  The final Except.ok corresponds to
publishing the device via devm_hwmon_device_register_with_info. -/
def nct7904_probe (bus : Bus) : Except Int NCT7904Data :=
  (probeFanin bus).bind fun p1 =>
    (probeTcpu bus (probeVsen bus p1.2).2).bind fun p2 =>
      (probeVeto bus p2.2 p2.1).bind fun p3 =>
        (probePeci bus p3.2).bind fun p4 =>
          (probeDts bus p4.2 p4.1).bind fun p5 =>
            (probeFanMode bus p5.2).bind fun p6 =>
              Except.ok ⟨p6.2, p1.1, (probeVsen bus p1.2).1, p3.1,
                p6.1, p4.1, p5.1⟩

/-- Inversion for Except.bind returning ok. -/
theorem except_bind_ok {ε α β : Type} (x : Except ε α) (f : α → Except ε β)
    (b : β) (h : x.bind f = Except.ok b) :
    ∃ a, x = Except.ok a ∧ f a = Except.ok b := by
  cases x with
  | error e => simp [Except.bind] at h
  | ok a => exact ⟨a, rfl, h⟩

/-- A successful single-byte banked read implies: the read returned the
device's byte, that byte is non-negative, the bank cache now holds the
requested bank, and if a bank-select write was needed it succeeded. -/
theorem read_reg_ok (bus : Bus) (bs : Int) (b r : Nat)
    (hw : bus.writeBankSel b ≤ 0)
    (h : 0 ≤ (nct7904_read_reg bus bs b r).1) :
    (nct7904_read_reg bus bs b r).1 = bus.readByte b r ∧
    0 ≤ bus.readByte b r ∧
    (nct7904_read_reg bus bs b r).2.1 = ((b : Nat) : Int) ∧
    (bs ≠ ((b : Nat) : Int) → bus.writeBankSel b = 0) := by
  by_cases hbs : bs = ((b : Nat) : Int)
  · subst hbs
    refine ⟨?_, ?_, ?_, ?_⟩ <;>
      simp_all [nct7904_read_reg, nct7904_bank_lock]
  · by_cases hw0 : bus.writeBankSel b = 0
    · refine ⟨?_, ?_, ?_, ?_⟩ <;>
        simp_all [nct7904_read_reg, nct7904_bank_lock]
    · exfalso
      have hv : (nct7904_read_reg bus bs b r).1 = bus.writeBankSel b := by
        simp [nct7904_read_reg, nct7904_bank_lock, hbs, hw0]
      rw [hv] at h
      omega

/-- A successful composite (16-bit) banked read implies: both byte reads
returned non-negative bytes, the bank cache now holds the requested bank,
a needed bank-select write succeeded, and the result is
byte(r + 1) ||| (byte(r) <<< 8). -/
theorem read_reg16_ok (bus : Bus) (bs : Int) (b r : Nat)
    (hw : bus.writeBankSel b ≤ 0)
    (h : 0 ≤ (nct7904_read_reg16 bus bs b r).1) :
    0 ≤ bus.readByte b r ∧ 0 ≤ bus.readByte b (r + 1) ∧
    (nct7904_read_reg16 bus bs b r).2.1 = ((b : Nat) : Int) ∧
    (bs ≠ ((b : Nat) : Int) → bus.writeBankSel b = 0) ∧
    (nct7904_read_reg16 bus bs b r).1 =
      (((bus.readByte b (r + 1)).toNat |||
        ((bus.readByte b r).toNat <<< 8) : Nat) : Int) := by
  by_cases hbs : bs = ((b : Nat) : Int)
  · subst hbs
    by_cases hhi : 0 ≤ bus.readByte b r
    · by_cases hlo : 0 ≤ bus.readByte b (r + 1)
      · refine ⟨hhi, hlo, ?_, fun hne => absurd rfl hne, ?_⟩ <;>
          simp [nct7904_read_reg16, nct7904_bank_lock, hhi, hlo]
      · exfalso
        have hv : (nct7904_read_reg16 bus ((b : Nat) : Int) b r).1 =
            bus.readByte b (r + 1) := by
          simp [nct7904_read_reg16, nct7904_bank_lock, hhi, hlo]
        rw [hv] at h
        omega
    · exfalso
      have hv : (nct7904_read_reg16 bus ((b : Nat) : Int) b r).1 =
          bus.readByte b r := by
        simp [nct7904_read_reg16, nct7904_bank_lock, hhi]
      rw [hv] at h
      omega
  · by_cases hw0 : bus.writeBankSel b = 0
    · by_cases hhi : 0 ≤ bus.readByte b r
      · by_cases hlo : 0 ≤ bus.readByte b (r + 1)
        · refine ⟨hhi, hlo, ?_, fun _ => hw0, ?_⟩ <;>
            simp [nct7904_read_reg16, nct7904_bank_lock, hbs, hw0, hhi, hlo]
        · exfalso
          have hv : (nct7904_read_reg16 bus bs b r).1 =
              bus.readByte b (r + 1) := by
            simp [nct7904_read_reg16, nct7904_bank_lock, hbs, hw0, hhi, hlo]
          rw [hv] at h
          omega
      · exfalso
        have hv : (nct7904_read_reg16 bus bs b r).1 = bus.readByte b r := by
          simp [nct7904_read_reg16, nct7904_bank_lock, hbs, hw0, hhi]
        rw [hv] at h
        omega
    · exfalso
      have hv : (nct7904_read_reg16 bus bs b r).1 = bus.writeBankSel b := by
        simp [nct7904_read_reg16, nct7904_bank_lock, hbs, hw0]
      rw [hv] at h
      omega

/-- The VSEN step never changes the bank cache when entered at bank 0:
both of its accesses target bank 0, so the bank-select cache hit leaves
the cache untouched whatever the reads return. -/
theorem probeVsen_bank (bus : Bus) : (probeVsen bus 0).2 = 0 := by
  have hB : ((BANK_0 : Nat) : Int) = 0 := by decide
  simp only [probeVsen, nct7904_read_reg, nct7904_read_reg16,
    nct7904_bank_lock, hB]
  split_ifs <;> simp_all

/-- A successful FANIN probe step implies the bank-0 select write and both
bytes of the fan-enable word read succeeded, and leaves the cache at 0. -/
theorem probeFanin_ok (bus : Bus) (p : Nat × Int)
    (hw : bus.writeBankSel BANK_0 ≤ 0)
    (h : probeFanin bus = Except.ok p) :
    bus.writeBankSel BANK_0 = 0 ∧
    0 ≤ bus.readByte BANK_0 FANIN_CTRL0_REG ∧
    0 ≤ bus.readByte BANK_0 (FANIN_CTRL0_REG + 1) ∧ p.2 = 0 := by
  simp only [probeFanin] at h
  split at h
  · simp at h
  case isFalse hn =>
    have h16 := read_reg16_ok bus (-1) BANK_0 FANIN_CTRL0_REG hw
      (Int.not_lt.mp hn)
    rw [Except.ok.injEq] at h
    refine ⟨h16.2.2.2.1 (by decide), h16.1, h16.2.1, ?_⟩
    rw [← h]
    rw [show ((swap16 (nct7904_read_reg16 bus (-1) BANK_0
      FANIN_CTRL0_REG).1.toNat,
      (nct7904_read_reg16 bus (-1) BANK_0 FANIN_CTRL0_REG).2.1) :
        Nat × Int).2 =
      (nct7904_read_reg16 bus (-1) BANK_0 FANIN_CTRL0_REG).2.1 from rfl]
    rw [h16.2.2.1]
    decide

/-- A successful CPU_TEMP + LTD probe step entered at bank 0 implies both
of its byte reads succeeded, and leaves the cache at 0. -/
theorem probeTcpu_ok (bus : Bus) (p : Nat × Int)
    (hw : bus.writeBankSel BANK_0 ≤ 0)
    (h : probeTcpu bus 0 = Except.ok p) :
    0 ≤ bus.readByte BANK_0 VT_ADC_CTRL0_REG ∧
    0 ≤ bus.readByte BANK_0 VT_ADC_CTRL2_REG ∧ p.2 = 0 := by
  simp only [probeTcpu] at h
  split at h
  · simp at h
  case isFalse h1 =>
    have ra := read_reg_ok bus 0 BANK_0 VT_ADC_CTRL0_REG hw
      (Int.not_lt.mp h1)
    split at h
    · simp at h
    case isFalse h2 =>
      have rb := read_reg_ok bus
        (nct7904_read_reg bus 0 BANK_0 VT_ADC_CTRL0_REG).2.1 BANK_0
        VT_ADC_CTRL2_REG hw (Int.not_lt.mp h2)
      rw [Except.ok.injEq] at h
      refine ⟨ra.2.1, rb.2.1, ?_⟩
      rw [← h]
      rw [show ∀ a : Nat, ∀ b : Int, ((a, b) : Nat × Int).2 = b from
        fun _ _ => rfl]
      rw [rb.2.2.1]
      decide

/-- A successful multi-function veto probe step entered at bank 0 implies
its byte read succeeded, and leaves the cache at 0. -/
theorem probeVeto_ok (bus : Bus) (t : Nat) (p : Nat × Int)
    (hw : bus.writeBankSel BANK_0 ≤ 0)
    (h : probeVeto bus 0 t = Except.ok p) :
    0 ≤ bus.readByte BANK_0 VT_ADC_MD_REG ∧ p.2 = 0 := by
  simp only [probeVeto] at h
  split at h
  · simp at h
  case isFalse h1 =>
    have ra := read_reg_ok bus 0 BANK_0 VT_ADC_MD_REG hw (Int.not_lt.mp h1)
    rw [Except.ok.injEq] at h
    refine ⟨ra.2.1, ?_⟩
    rw [← h]
    rw [show ∀ a : Nat, ∀ b : Int, ((a, b) : Nat × Int).2 = b from
      fun _ _ => rfl]
    rw [ra.2.2.1]
    decide

/-- A successful PECI/TSI probe step entered away from bank 2 implies the
bank-2 select write and the PECI-enable read succeeded, and leaves the
cache at 2. -/
theorem probePeci_ok (bus : Bus) (bs : Int) (p : Nat × Int)
    (hw : bus.writeBankSel BANK_2 ≤ 0)
    (hne : bs ≠ ((BANK_2 : Nat) : Int))
    (h : probePeci bus bs = Except.ok p) :
    bus.writeBankSel BANK_2 = 0 ∧ 0 ≤ bus.readByte BANK_2 PFE_REG ∧
    p.2 = 2 := by
  simp only [probePeci] at h
  split at h
  · simp at h
  case isFalse h1 =>
    have ra := read_reg_ok bus bs BANK_2 PFE_REG hw (Int.not_lt.mp h1)
    split at h
    · rw [Except.ok.injEq] at h
      refine ⟨ra.2.2.2 hne, ra.2.1, ?_⟩
      rw [← h]
      rw [show ∀ a : Nat, ∀ b : Int, ((a, b) : Nat × Int).2 = b from
        fun _ _ => rfl]
      rw [ra.2.2.1]
      decide
    · split at h
      · simp at h
      case isFalse h2 =>
        have rb := read_reg_ok bus
          (nct7904_read_reg bus bs BANK_2 PFE_REG).2.1 BANK_2
          TSI_CTRL_REG hw (Int.not_lt.mp h2)
        split at h <;> rw [Except.ok.injEq] at h <;>
          refine ⟨ra.2.2.2 hne, ra.2.1, ?_⟩ <;> rw [← h] <;>
          rw [show ∀ a : Nat, ∀ b : Int, ((a, b) : Nat × Int).2 = b from
            fun _ _ => rfl] <;>
          rw [rb.2.2.1] <;> decide

/-- A successful DTS probe step entered at bank 2 leaves the cache at 2
(external diode sensing disabled: no read at all) or at 0 (its reads
target bank 0). -/
theorem probeDts_ok (bus : Bus) (e : Nat) (p : Nat × Int)
    (hw : bus.writeBankSel BANK_0 ≤ 0)
    (h : probeDts bus 2 e = Except.ok p) :
    p.2 = 2 ∨ p.2 = 0 := by
  simp only [probeDts] at h
  split at h
  case isTrue he =>
    split at h
    · simp at h
    case isFalse h1 =>
      have ra := read_reg_ok bus 2 BANK_0 DTS_T_CTRL0_REG hw
        (Int.not_lt.mp h1)
      split at h
      · split at h
        · simp at h
        case isFalse h2 =>
          have rb := read_reg_ok bus
            (nct7904_read_reg bus 2 BANK_0 DTS_T_CTRL0_REG).2.1 BANK_0
            DTS_T_CTRL1_REG hw (Int.not_lt.mp h2)
          rw [Except.ok.injEq] at h
          right
          rw [← h]
          rw [show ∀ a : Nat, ∀ b : Int, ((a, b) : Nat × Int).2 = b from
            fun _ _ => rfl]
          rw [rb.2.2.1]
          decide
      · rw [Except.ok.injEq] at h
        right
        rw [← h]
        rw [show ∀ a : Nat, ∀ b : Int, ((a, b) : Nat × Int).2 = b from
          fun _ _ => rfl]
        rw [ra.2.2.1]
        decide
  case isFalse he =>
    rw [Except.ok.injEq] at h
    left
    rw [← h]

/-- A successful fan-mode snapshot probe step entered away from bank 3
implies the bank-3 select write and all four mode-byte reads succeeded. -/
theorem probeFanMode_ok (bus : Bus) (bs : Int) (p : List Nat × Int)
    (hw : bus.writeBankSel BANK_3 ≤ 0)
    (hne : bs ≠ ((BANK_3 : Nat) : Int))
    (h : probeFanMode bus bs = Except.ok p) :
    bus.writeBankSel BANK_3 = 0 ∧
    0 ≤ bus.readByte BANK_3 (FANCTL1_FMR_REG + 0) ∧
    0 ≤ bus.readByte BANK_3 (FANCTL1_FMR_REG + 1) ∧
    0 ≤ bus.readByte BANK_3 (FANCTL1_FMR_REG + 2) ∧
    0 ≤ bus.readByte BANK_3 (FANCTL1_FMR_REG + 3) := by
  simp only [probeFanMode] at h
  split at h
  · simp at h
  case isFalse h0 =>
    have r0 := read_reg_ok bus bs BANK_3 (FANCTL1_FMR_REG + 0) hw
      (Int.not_lt.mp h0)
    split at h
    · simp at h
    case isFalse h1 =>
      have r1 := read_reg_ok bus
        (nct7904_read_reg bus bs BANK_3 (FANCTL1_FMR_REG + 0)).2.1 BANK_3
        (FANCTL1_FMR_REG + 1) hw (Int.not_lt.mp h1)
      split at h
      · simp at h
      case isFalse h2 =>
        have r2 := read_reg_ok bus
          (nct7904_read_reg bus
            (nct7904_read_reg bus bs BANK_3 (FANCTL1_FMR_REG + 0)).2.1
            BANK_3 (FANCTL1_FMR_REG + 1)).2.1 BANK_3
          (FANCTL1_FMR_REG + 2) hw (Int.not_lt.mp h2)
        split at h
        · simp at h
        case isFalse h3 =>
          have r3 := read_reg_ok bus
            (nct7904_read_reg bus
              (nct7904_read_reg bus
                (nct7904_read_reg bus bs BANK_3
                  (FANCTL1_FMR_REG + 0)).2.1
                BANK_3 (FANCTL1_FMR_REG + 1)).2.1 BANK_3
              (FANCTL1_FMR_REG + 2)).2.1 BANK_3
            (FANCTL1_FMR_REG + 3) hw (Int.not_lt.mp h3)
          exact ⟨r0.2.2.2 hne, r0.2.1, r1.2.1, r2.2.1, r3.2.1⟩

/-- Claim C2 (amended): attachment success implies that the bank-select
writes and every unconditionally-mandatory capability-detection read
succeeded — every read except the two voltage-enable seeding reads, whose
failures are tolerated with the corresponding voltage-mask bits left
unset.  (The second byte of the voltage-enable word, register 0x21, is
absent from the conclusion: its failure survives to a successful
attach.) -/
theorem c2_probe_failure_aborts (bus : Bus) (d : NCT7904Data)
    (hw0 : bus.writeBankSel BANK_0 ≤ 0)
    (hw2 : bus.writeBankSel BANK_2 ≤ 0)
    (hw3 : bus.writeBankSel BANK_3 ≤ 0)
    (h : nct7904_probe bus = Except.ok d) :
    bus.writeBankSel BANK_0 = 0 ∧
    0 ≤ bus.readByte BANK_0 FANIN_CTRL0_REG ∧
    0 ≤ bus.readByte BANK_0 (FANIN_CTRL0_REG + 1) ∧
    0 ≤ bus.readByte BANK_0 VT_ADC_CTRL0_REG ∧
    0 ≤ bus.readByte BANK_0 VT_ADC_CTRL2_REG ∧
    0 ≤ bus.readByte BANK_0 VT_ADC_MD_REG ∧
    bus.writeBankSel BANK_2 = 0 ∧
    0 ≤ bus.readByte BANK_2 PFE_REG ∧
    bus.writeBankSel BANK_3 = 0 ∧
    0 ≤ bus.readByte BANK_3 (FANCTL1_FMR_REG + 0) ∧
    0 ≤ bus.readByte BANK_3 (FANCTL1_FMR_REG + 1) ∧
    0 ≤ bus.readByte BANK_3 (FANCTL1_FMR_REG + 2) ∧
    0 ≤ bus.readByte BANK_3 (FANCTL1_FMR_REG + 3) := by
  simp only [nct7904_probe] at h
  obtain ⟨p1, h1, h⟩ := except_bind_ok _ _ _ h
  have f1 := probeFanin_ok bus p1 hw0 h1
  obtain ⟨p2, h2, h⟩ := except_bind_ok _ _ _ h
  rw [f1.2.2.2, probeVsen_bank bus] at h2
  have f2 := probeTcpu_ok bus p2 hw0 h2
  obtain ⟨p3, h3, h⟩ := except_bind_ok _ _ _ h
  rw [f2.2.2] at h3
  have f3 := probeVeto_ok bus p2.1 p3 hw0 h3
  obtain ⟨p4, h4, h⟩ := except_bind_ok _ _ _ h
  rw [f3.2] at h4
  have f4 := probePeci_ok bus 0 p4 hw2 (by decide) h4
  obtain ⟨p5, h5, h⟩ := except_bind_ok _ _ _ h
  rw [f4.2.2] at h5
  have f5 := probeDts_ok bus p4.1 p5 hw0 h5
  obtain ⟨p6, h6, h⟩ := except_bind_ok _ _ _ h
  have hne3 : p5.2 ≠ ((BANK_3 : Nat) : Int) := by
    rcases f5 with h' | h' <;> rw [h'] <;> decide
  have f6 := probeFanMode_ok bus p5.2 p6 hw3 hne3 h6
  exact ⟨f1.1, f1.2.1, f1.2.2.1, f2.1, f2.2.1, f3.1, f4.1, f4.2.1,
    f6.1, f6.2.1, f6.2.2.1, f6.2.2.2.1, f6.2.2.2.2⟩

/-- Bus on which only the second byte (register 0x21) of the voltage-enable
control word fails (errno -5); every other read returns 0x11 and bank
selects succeed. -/
def vsenFailBus : Bus :=
  ⟨fun b r => if b = 0 ∧ r = 0x21 then -5 else 0x11, fun _ => 0⟩

/-- Claim C2 counterexample: on vsenFailBus the 16-bit voltage-enable
control word read fails during probe (its second byte read returns -5),
yet attachment is NOT aborted: the probe publishes a device whose voltage
presence mask has only the top byte (from the control byte read) and
whose low 16 bits are left unset — a partially computed mask. -/
theorem c2_vsen_read_failure_tolerated :
    vsenFailBus.readByte BANK_0 (VT_ADC_CTRL0_REG + 1) = -5 ∧
    (nct7904_read_reg16 vsenFailBus 0 BANK_0 VT_ADC_CTRL0_REG).1 = -5 ∧
    (nct7904_probe vsenFailBus).toOption =
      some ⟨3, 0x1111, 0x110000, 0, [0x11, 0x11, 0x11, 0x11], 0, 0⟩ := by
  refine ⟨rfl, by decide, rfl⟩

/-- Bus on which every read returns 0x11 and every bank select succeeds. -/
def okBus : Bus := ⟨fun _ _ => 0x11, fun _ => 0⟩

/-- Claim C2 witness: concrete instantiation of the amended theorem on a
fully healthy bus. -/
theorem c2_probe_failure_aborts_witness :
    okBus.writeBankSel BANK_0 = 0 ∧
    0 ≤ okBus.readByte BANK_0 FANIN_CTRL0_REG ∧
    0 ≤ okBus.readByte BANK_0 (FANIN_CTRL0_REG + 1) ∧
    0 ≤ okBus.readByte BANK_0 VT_ADC_CTRL0_REG ∧
    0 ≤ okBus.readByte BANK_0 VT_ADC_CTRL2_REG ∧
    0 ≤ okBus.readByte BANK_0 VT_ADC_MD_REG ∧
    okBus.writeBankSel BANK_2 = 0 ∧
    0 ≤ okBus.readByte BANK_2 PFE_REG ∧
    okBus.writeBankSel BANK_3 = 0 ∧
    0 ≤ okBus.readByte BANK_3 (FANCTL1_FMR_REG + 0) ∧
    0 ≤ okBus.readByte BANK_3 (FANCTL1_FMR_REG + 1) ∧
    0 ≤ okBus.readByte BANK_3 (FANCTL1_FMR_REG + 2) ∧
    0 ≤ okBus.readByte BANK_3 (FANCTL1_FMR_REG + 3) :=
  c2_probe_failure_aborts okBus
    ⟨3, 0x1111, 0x111111, 0, [0x11, 0x11, 0x11, 0x11], 0, 0⟩
    (by decide) (by decide) (by decide) (by rfl)

end NCT7904
